import Mathlib

/-!
Verification of the transaction-form state logic of the zkevm-bridge-ui
repository (`TransactionForm` component). The component's state fields,
event handlers and effect bodies are embedded as pure Lean functions on an
explicit state record; asynchronous promise chains are modelled by their
synchronous dispatch part and by an explicit completion function applied
when a promise settles. `BigNumber` amounts are modelled as `Nat`.
-/

/-- A configured chain. The source's `Chain` (from `src/domain`) carries a
`key` identifier, a network id and a balance-provider handle; the provider is
an opaque collaborator and is not part of the state compared here. -/
structure Chain where
  key : String
  networkId : Nat
deriving DecidableEq, Repr

/-- A token, per `src/domain`: address, symbol and decimals (display metadata
omitted as opaque). -/
structure Token where
  address : String
  symbol : String
  decimals : Nat
deriving DecidableEq, Repr

/-- `AsyncTask<T,E>` from `src/utils/types`: tagged union
pending / successful / failed. -/
inductive AsyncTask (T E : Type) where
  | pending : AsyncTask T E
  | successful (data : T) : AsyncTask T E
  | failed (error : E) : AsyncTask T E
deriving DecidableEq, Repr

/-- `estimatedFee.status === "failed"` test on an `AsyncTask`. -/
def AsyncTask.isFailed {T E : Type} : AsyncTask T E → Bool
  | .failed _ => true
  | _ => false

/-- The `FormChains` interface of the component: the selected from/to pair. -/
structure FormChains where
  «from» : Chain
  «to» : Chain
deriving DecidableEq, Repr

/-- The environment supplied by `useEnvContext`: the ordered list of
configured chains (the token registry is not needed by the properties
verified here). -/
structure Env where
  chains : List Chain
deriving DecidableEq, Repr

/-- Errors raised by the chain-interaction layer. The source distinguishes
the ethers insufficient-funds error kind from every other failure; other
failures are kept as their eventual parsed message payload. -/
inductive EthersError where
  | insufficientFunds : EthersError
  | generic (raw : String) : EthersError
deriving DecidableEq, Repr

/-- `isEthersInsufficientFundsError` from `src/utils/types`: recognises the
distinguishable insufficient-funds error kind. -/
def isEthersInsufficientFundsError : EthersError → Bool
  | .insufficientFunds => true
  | .generic _ => false

/-- Modelled from the spec: `parseError` (`src/adapters/error`, not among the
provided sources) maps an opaque failure into a human-readable message,
asynchronously. Generic failures carry their parsed message as payload here. -/
def parseError : EthersError → String
  | .insufficientFunds => "insufficient funds"
  | .generic raw => raw

/-- A `openSnackbar` notification record: `{ type, text }`. -/
structure Snackbar where
  type : String
  text : String
deriving DecidableEq, Repr

/-- The component state of `TransactionForm`: the `useState` fields. The
picker `list` state stores an opaque widget configuration, modelled as
`Option Unit` (set ↔ open). -/
structure FormState where
  list : Option Unit
  balanceFrom : Option Nat
  balanceTo : Option Nat
  inputError : Option String
  chains : Option FormChains
  token : Option Token
  amount : Option Nat
  estimatedFee : AsyncTask Nat String
deriving DecidableEq, Repr

/-- The `amount.isZero()` test, reached only when the amount is set. -/
def isZeroAmount : Option Nat → Bool
  | some a => a == 0
  | none => false

/-- The submit button's `disabled` expression:
`!amount || amount.isZero() || inputError !== undefined ||
estimatedFee.status === "failed"`. -/
def submitDisabled (s : FormState) : Bool :=
  s.amount.isNone || isZeroAmount s.amount || s.inputError.isSome
    || s.estimatedFee.isFailed

/-- `onChainFromButtonClick`: when env and chains are initialized, look up the
first configured chain whose key differs from the clicked chain; if one
exists, set the pair, close the picker list and clear the amount; otherwise do
nothing. -/
def onChainFromButtonClick (env : Option Env) (s : FormState) (c : Chain) :
    FormState :=
  match env, s.chains with
  | some e, some _ =>
    match e.chains.find? (fun chain => chain.key != c.key) with
    | some t => { s with chains := some ⟨c, t⟩, list := none, amount := none }
    | none => s
  | _, _ => s

/-- `onInputChange`: stores the amount and validation error reported by the
amount-input collaborator. -/
def onInputChange (s : FormState) (amount : Option Nat)
    (error : Option String) : FormState :=
  { s with amount := amount, inputError := error }

/-- The `TransactionData` record handed to `onSubmit`. -/
structure TransactionData where
  token : Token
  «from» : Chain
  «to» : Chain
  amount : Nat
  estimatedFee : Nat
deriving DecidableEq, Repr

/-- The guard and payload of `onFormSubmit`: emits the transaction record
exactly when `chains && token && amount && estimatedFee.status ===
"successful"`. -/
def onFormSubmitEmits (s : FormState) : Option TransactionData :=
  match s.chains, s.token, s.amount, s.estimatedFee with
  | some cs, some tk, some a, .successful fee =>
    some { token := tk, «from» := cs.«from», «to» := cs.«to», amount := a,
           estimatedFee := fee }
  | _, _, _, _ => none

/-- The submit action as reachable through the form: the browser dispatches
the form's submit event only while the submit button is not `disabled`, and
the event then runs `onFormSubmit`. -/
def submitAction (s : FormState) : Option TransactionData :=
  if submitDisabled s then none else onFormSubmitEmits s

/-- The fee-estimation request tuple passed to `estimateBridgeGasPrice`. -/
structure FeeRequest where
  «from» : Chain
  «to» : Chain
  token : Token
  destinationAddress : String
deriving DecidableEq, Repr

/-- The synchronous body of the fee-estimation `useEffect`: when chains and
token are set it dispatches an estimation request for the current tuple and
attaches the then/catch handlers. It performs no state update before the
asynchronous call (in particular `estimatedFee` is not written). -/
def feeEffectRun (account : String) (s : FormState) :
    FormState × Option FeeRequest :=
  match s.chains, s.token with
  | some cs, some tk =>
    (s, some { «from» := cs.«from», «to» := cs.«to», token := tk,
               destinationAddress := account })
  | _, _ => (s, none)

/-- The fixed message written by the insufficient-funds branch of the catch
handler (the apostrophe is written as the escape \x27). -/
def insufficientFeeMsg : String := "You don\x27t have enough ETH to pay for the fees"

/-- Settlement of an `estimateBridgeGasPrice` promise, i.e. the attached
then/catch handlers: success stores a successful task; an insufficient-funds
failure stores a failed task with the fixed message; any other failure only
opens a snackbar with the parsed message. Every rejection is handled (the
chain has a catch handler), so the result is always `Except.ok`; the second
component lists the `openSnackbar` calls made. -/
def feeSettle (s : FormState) (r : Except EthersError Nat) :
    Except String (FormState × List Snackbar) :=
  match r with
  | .ok fee => .ok ({ s with estimatedFee := .successful fee }, [])
  | .error e =>
    if isEthersInsufficientFundsError e then
      .ok ({ s with estimatedFee := .failed insufficientFeeMsg }, [])
    else
      .ok (s, [{ type := "error-msg", text := parseError e }])

/-- Settlement of a `provider.getBalance(account)` promise. The chain is
`void promise.then(setBalanceFrom)` (resp. `setBalanceTo`) with no rejection
handler, so a fulfilled value is stored while a rejection propagates out of
the chain unhandled, modelled as `Except.error`. -/
def balanceSettle (s : FormState) (isFrom : Bool) (r : Except String Nat) :
    Except String FormState :=
  match r with
  | .ok b =>
    .ok (if isFrom then { s with balanceFrom := some b }
         else { s with balanceTo := some b })
  | .error e => .error e

/-- An event of the fee-estimation subsystem: the effect dispatches a request,
or an in-flight request settles. The request id records which dispatch a
settlement belongs to, so that staleness can be stated; the code itself
carries no such id and compares nothing. -/
inductive FeeEvent where
  | dispatch : FeeEvent
  | complete (reqId : Nat) (r : Except EthersError Nat) : FeeEvent

/-- Processing one fee event against the accumulated state and snackbar log:
a dispatch leaves the state unchanged (see `feeEffectRun`); a settlement is
applied by the closure's handlers unconditionally, with no identity check. -/
def applyFeeEvent (acc : FormState × List Snackbar) (e : FeeEvent) :
    FormState × List Snackbar :=
  match e with
  | .dispatch => acc
  | .complete _ r =>
    match feeSettle acc.1 r with
    | .ok (s2, sb) => (s2, acc.2 ++ sb)
    | .error _ => acc

/-- Processing a sequence of fee events from a starting state. -/
def runFeeEvents (s : FormState) (evs : List FeeEvent) :
    FormState × List Snackbar :=
  evs.foldl applyFeeEvent (s, [])

/-- The chain-pair invariant: whenever the pair is set, the keys differ. -/
def chainsOk (s : FormState) : Prop :=
  ∀ cs, s.chains = some cs → cs.«from».key ≠ cs.«to».key

/- Concrete values used by counterexamples and witnesses. -/

/-- A sample configured chain. -/
def chainA : Chain := { key := "a", networkId := 1 }

/-- A second sample configured chain. -/
def chainB : Chain := { key := "b", networkId := 2 }

/-- A sample environment holding two configured chains. -/
def envAB : Env := { chains := [chainA, chainB] }

/-- A sample token. -/
def tokenETH : Token := { address := "0x0", symbol := "ETH", decimals := 18 }

/-- A draft state with a positive amount, no input error and a pending fee. -/
def statePendingFee : FormState :=
  { list := none, balanceFrom := none, balanceTo := none, inputError := none,
    chains := some ⟨chainA, chainB⟩, token := some tokenETH,
    amount := some 1, estimatedFee := .pending }

/-- A draft state whose fee estimate already resolved successfully to 5. -/
def stateSuccessfulFee : FormState :=
  { list := none, balanceFrom := none, balanceTo := none, inputError := none,
    chains := some ⟨chainA, chainB⟩, token := some tokenETH,
    amount := some 1, estimatedFee := .successful 5 }

/-- A draft state carrying an input error and a successful fee of 3. -/
def stateErrorAndFee : FormState :=
  { list := some (), balanceFrom := some 10, balanceTo := some 2,
    inputError := some "invalid amount",
    chains := some ⟨chainA, chainB⟩, token := some tokenETH,
    amount := some 4, estimatedFee := .successful 3 }

/-! Helper lemmas shared by the claim theorems. -/

/-- The disabled expression is false exactly when the amount is set and
positive, no input error is present and the fee task is not failed. -/
theorem submitDisabled_eq_false (s : FormState) :
    submitDisabled s = false ↔
      (∃ a, s.amount = some a ∧ 0 < a) ∧ s.inputError = none ∧
        s.estimatedFee.isFailed = false := by
  unfold submitDisabled
  cases ham : s.amount with
  | none => simp [ham, isZeroAmount]
  | some a =>
    cases herr : s.inputError <;>
      simp [ham, herr, isZeroAmount, Nat.pos_iff_ne_zero]

/-- One chain-from selection preserves the key-distinctness invariant. -/
theorem chainsOk_click (env : Option Env) (s : FormState) (c : Chain)
    (h : chainsOk s) : chainsOk (onChainFromButtonClick env s c) := by
  unfold onChainFromButtonClick
  split
  · split
    · next t hf =>
      have hb := List.find?_some hf
      have hne : t.key ≠ c.key := by simpa using hb
      unfold chainsOk
      simpa using Ne.symm hne
    · exact h
  · exact h

/-- C1 counterexample: in the draft state `statePendingFee` the fee estimate
is still pending, yet the submit button's disabled expression evaluates to
false, so submit is enabled while `estimatedFee` is not successful —
refuting "submit is enabled iff ... estimatedFee is successful; in every
other state (including estimatedFee pending) submit is disabled". -/
theorem submit_gate_pending_enabled_cex :
    statePendingFee.estimatedFee = AsyncTask.pending ∧
      submitDisabled statePendingFee = false := ⟨rfl, rfl⟩

/-- C1 (amended): the submit button is enabled iff the amount is set, the
amount is greater than zero, inputError is unset, and estimatedFee is NOT in
the failed state — a pending fee estimate leaves submit enabled. -/
theorem submit_enabled_iff_not_failed (s : FormState) :
    submitDisabled s = false ↔
      (∃ a, s.amount = some a ∧ 0 < a) ∧ s.inputError = none ∧
        s.estimatedFee.isFailed = false :=
  submitDisabled_eq_false s

/-- C2 counterexample: starting from `stateSuccessfulFee` (whose fee resolved
to 5 under a previous tuple), running the fee-estimation effect dispatches a
new request but leaves `estimatedFee` equal to the old successful value — a
read immediately after the input change observes `successful 5`, not
pending. -/
theorem fee_effect_no_pending_reset_cex :
    ((feeEffectRun "0xacc" stateSuccessfulFee).2).isSome = true ∧
      (feeEffectRun "0xacc" stateSuccessfulFee).1.estimatedFee =
        AsyncTask.successful 5 := ⟨rfl, rfl⟩

/-- C2 (amended): on an input-tuple change the fee-estimation effect
dispatches the new estimation call without touching the form state at all —
in particular `estimatedFee` is never reset to pending, so it retains the
previous tuple's value until a completion is processed. -/
theorem fee_effect_state_unchanged (account : String) (s : FormState) :
    (feeEffectRun account s).1 = s := by
  unfold feeEffectRun
  split <;> rfl

/-- C3 counterexample: two requests are dispatched in order; the completion
of the older request (id 0) is processed after the newer request (id 1) has
started, and its result 100 is nevertheless committed to `estimatedFee` —
refuting "the older result is never written into estimatedFee". -/
theorem stale_fee_completion_overwrites_cex :
    (runFeeEvents statePendingFee
        [FeeEvent.dispatch, FeeEvent.dispatch,
         FeeEvent.complete 0 (Except.ok 100)]).1.estimatedFee =
      AsyncTask.successful 100 := rfl

/-- C3 (amended): the completion handlers commit their result
unconditionally — there is no version or identity check, so a completion
processed after a newer request has started still overwrites `estimatedFee`,
whichever request it belongs to. -/
theorem stale_fee_completion_commits (s : FormState) (id fee : Nat) :
    (runFeeEvents s
        [FeeEvent.dispatch, FeeEvent.dispatch,
         FeeEvent.complete id (Except.ok fee)]).1.estimatedFee =
      AsyncTask.successful fee := rfl

/-- C4 counterexample: a generic (non-insufficient-funds) fee-estimation
failure against `stateSuccessfulFee` opens exactly one snackbar with the
parsed message but leaves the state — and hence `estimatedFee`, still
`successful 5` — unchanged: `estimatedFee` does not transition to the failed
state as the claim requires. -/
theorem generic_fee_failure_not_failed_cex :
    feeSettle stateSuccessfulFee (Except.error (EthersError.generic "boom")) =
      Except.ok (stateSuccessfulFee,
        [{ type := "error-msg", text := "boom" }]) ∧
      stateSuccessfulFee.estimatedFee = AsyncTask.successful 5 := ⟨rfl, rfl⟩

/-- C4 (amended): for every fee-estimation failure that is not the
insufficient-funds kind, exactly one notification-sink call carrying the
parsed error message is made, and the form state is left unchanged —
`estimatedFee` does NOT transition to failed. -/
theorem generic_fee_failure_snackbar_only (s : FormState) (e : EthersError)
    (h : isEthersInsufficientFundsError e = false) :
    feeSettle s (Except.error e) =
      Except.ok (s, [{ type := "error-msg", text := parseError e }]) := by
  simp [feeSettle, h]

/-- Witness for C4's amended theorem at a concrete generic failure. -/
theorem generic_fee_failure_snackbar_only_witness :
    feeSettle statePendingFee
        (Except.error (EthersError.generic "network error")) =
      Except.ok (statePendingFee,
        [{ type := "error-msg", text := "network error" }]) :=
  generic_fee_failure_snackbar_only statePendingFee
    (EthersError.generic "network error") rfl

/-- C5 counterexample: selecting chain `chainB` as the new "from" chain in
`stateErrorAndFee` leaves `inputError` set to "invalid amount" and
`estimatedFee` still `successful 3` — refuting "inputError cleared to unset
and estimatedFee reset to pending". -/
theorem chain_from_click_keeps_error_fee_cex :
    (onChainFromButtonClick (some envAB) stateErrorAndFee chainB).inputError =
      some "invalid amount" ∧
      (onChainFromButtonClick (some envAB) stateErrorAndFee chainB).estimatedFee
        = AsyncTask.successful 3 := ⟨rfl, rfl⟩

/-- C5 (amended): when the environment and chains are initialized and a
configured chain with a different key exists, selecting a new "from" chain
sets "to" to the first such chain, clears the amount and closes the picker
list; `inputError`, `estimatedFee`, `token` and the balances are left
unchanged (in particular `inputError` is not cleared and `estimatedFee` is
not reset to pending). -/
theorem chain_from_click_updates (E : Env) (s : FormState) (c t : Chain)
    (hch : s.chains.isSome = true)
    (hfind : E.chains.find? (fun chain => chain.key != c.key) = some t) :
    onChainFromButtonClick (some E) s c =
      { s with chains := some ⟨c, t⟩, list := none, amount := none } := by
  unfold onChainFromButtonClick
  cases hc : s.chains with
  | none => rw [hc] at hch; simp at hch
  | some cs => simp [hfind]

/-- Witness for C5's amended theorem at a concrete selection. -/
theorem chain_from_click_updates_witness :
    onChainFromButtonClick (some envAB) stateErrorAndFee chainB =
      { stateErrorAndFee with
          chains := some ⟨chainB, chainA⟩, list := none, amount := none } :=
  chain_from_click_updates envAB stateErrorAndFee chainB chainA rfl rfl

/-- C6 counterexample: the insufficient-funds branch stores the failed task
with the message "You don\x27t have enough ETH to pay for the fees" (and opens
no snackbar); the stored message is not the claimed string "insufficient
balance to cover fees". -/
theorem insufficient_funds_message_cex :
    feeSettle stateSuccessfulFee (Except.error EthersError.insufficientFunds) =
      Except.ok ({ stateSuccessfulFee with
          estimatedFee := AsyncTask.failed insufficientFeeMsg }, []) ∧
      insufficientFeeMsg ≠ "insufficient balance to cover fees" :=
  ⟨rfl, by decide⟩

/-- C6 (amended): for every fee-estimation failure of the insufficient-funds
kind, `estimatedFee` transitions to the failed state carrying the fixed
user-actionable message "You don\x27t have enough ETH to pay for the fees",
and no call to the global notification sink is made. -/
theorem insufficient_funds_failed_no_snackbar (s : FormState) :
    feeSettle s (Except.error EthersError.insufficientFunds) =
      Except.ok ({ s with estimatedFee := AsyncTask.failed insufficientFeeMsg },
        []) := rfl

/-- C7: whenever the submit action (form submission is only dispatched while
the submit button is not disabled, and then runs `onFormSubmit`) emits a
transaction record, the amount was set and positive, `inputError` was unset,
`estimatedFee` was in the successful state, and the emitted record's
`estimatedFee` field equals the successful task's resolved data. -/
theorem submit_emits_only_when_valid (s : FormState) (t : TransactionData)
    (h : submitAction s = some t) :
    (∃ a, s.amount = some a ∧ 0 < a) ∧ s.inputError = none ∧
      s.estimatedFee = AsyncTask.successful t.estimatedFee := by
  unfold submitAction at h
  cases hd : submitDisabled s with
  | true => rw [hd] at h; simp at h
  | false =>
    rw [hd] at h
    simp only [Bool.false_eq_true, if_false] at h
    obtain ⟨ha, he, _⟩ := (submitDisabled_eq_false s).mp hd
    refine ⟨ha, he, ?_⟩
    unfold onFormSubmitEmits at h
    cases hch : s.chains <;> rw [hch] at h <;>
      cases htk : s.token <;> rw [htk] at h <;>
        cases ham : s.amount <;> rw [ham] at h <;>
          cases hfee : s.estimatedFee <;> rw [hfee] at h <;> simp at h
    rw [← h]

/-- Witness for C7 at a concrete valid draft state. -/
theorem submit_emits_only_when_valid_witness :
    (∃ a, stateSuccessfulFee.amount = some a ∧ 0 < a) ∧
      stateSuccessfulFee.inputError = none ∧
      stateSuccessfulFee.estimatedFee = AsyncTask.successful
        (TransactionData.mk tokenETH chainA chainB 1 5).estimatedFee :=
  submit_emits_only_when_valid stateSuccessfulFee
    (TransactionData.mk tokenETH chainA chainB 1 5) rfl

/-- C8 counterexample: a rejected balance fetch is not caught — the
`then`-chain has no rejection handler, so the failure propagates out of the
promise chain unhandled instead of being converted into a caught state. -/
theorem balance_fetch_failure_uncaught_cex :
    balanceSettle statePendingFee true (Except.error "network error") =
      Except.error "network error" := rfl

/-- C8 (amended): fee-estimation failures are always caught by the attached
catch handler (its settlement never propagates a failure), but balance-fetch
rejections have no handler and propagate unhandled (the balance is merely
left unresolved). -/
theorem async_failure_handling :
    (∀ (s : FormState) (isFrom : Bool) (e : String),
        balanceSettle s isFrom (Except.error e) = Except.error e) ∧
      ∀ (s : FormState) (e : EthersError), ∃ out,
        feeSettle s (Except.error e) = Except.ok out := by
  refine ⟨fun s w e => rfl, fun s e => ?_⟩
  cases e <;> exact ⟨_, rfl⟩

/-- C9: starting from any state satisfying the chain-pair invariant
(`from.key ≠ to.key` whenever the pair is set), the invariant holds after
every sequence of "from"-chain selections. -/
theorem chain_pair_invariant_preserved (env : Option Env) (s : FormState)
    (sel : List Chain) (h : chainsOk s) :
    chainsOk (sel.foldl (onChainFromButtonClick env) s) := by
  induction sel generalizing s with
  | nil => exact h
  | cons c cs ih => exact ih _ (chainsOk_click env s c h)

/-- Witness for C9: a concrete two-selection sequence from an initialized
state with distinct chain keys. -/
theorem chain_pair_invariant_preserved_witness :
    chainsOk ([chainB, chainA].foldl
      (onChainFromButtonClick (some envAB)) statePendingFee) :=
  chain_pair_invariant_preserved (some envAB) statePendingFee [chainB, chainA]
    (by unfold chainsOk statePendingFee; decide)

/-- C10: when the environment or the chains state is uninitialized, or no
configured chain has a key different from the selected chain's key, selecting
a "from" chain is a complete no-op: the resulting state equals the previous
state, so chains, amount, inputError, token, estimatedFee, balances and the
picker-list state are all unchanged. -/
theorem chain_from_click_noop (env : Option Env) (s : FormState) (c : Chain)
    (h : env = none ∨ s.chains = none ∨
      ∀ e, env = some e →
        e.chains.find? (fun chain => chain.key != c.key) = none) :
    onChainFromButtonClick env s c = s := by
  unfold onChainFromButtonClick
  cases env with
  | none => rfl
  | some e =>
    cases hc : s.chains with
    | none => rfl
    | some cs =>
      rcases h with h | h | h
      · exact absurd h (by simp)
      · rw [hc] at h; exact absurd h (by simp)
      · simp [h e rfl]

/-- Witness for C10: selecting a chain while the environment is
uninitialized leaves the state unchanged. -/
theorem chain_from_click_noop_witness :
    onChainFromButtonClick none statePendingFee chainA = statePendingFee :=
  chain_from_click_noop none statePendingFee chainA (Or.inl rfl)
